import Mathlib

/-!
# Verification of the streaming agent core of `yoyo-meal-flask`

Shallow embedding, in Lean 4, of the conversation engine of the repository:

* `wxcloudrun/services/llm_service.py` — the streaming response parser
  (`LLMService.chat_stream` / `LLMService._parse_chunk`);
* `wxcloudrun/services/agent_service.py` — the `ConversationStore` cache and
  the state-handling prelude of `AgentService.chat_stream`;
* `wxcloudrun/services/tool_executor.py` — the `ToolExecutor` dispatch and its
  tool handlers;
* `wxcloudrun/dao.py` — the domain-access functions those handlers call.

Machine integers are `Nat`/`Int`; timestamps are seconds as `Nat`, dates are
day counts as `Int`.  External library behaviour (HTTP transport, `json.loads`,
`datetime.strptime`) is embedded at its result boundary: a wire line is
classified exactly the way `chat_stream` classifies it, and a date argument is
carried together with its parse outcome.  Python dict/object reference
semantics, where they matter (the conversation store), are made explicit with
a heap of addressed objects.
-/

namespace YoyoMeal

/-- Python truthiness of an optional string (`if s:` on a value obtained with
`dict.get`): `None` and the empty string are falsy. -/
def pyTruthy : Option String → Bool
  | none => false
  | some s => s != ""

/-- `", ".join(l)` -/
def joinComma : List String → String
  | [] => ""
  | [s] => s
  | s :: rest => s ++ ", " ++ joinComma rest

/-- Ordered concatenation of a list of strings. -/
def concatAll : List String → String
  | [] => ""
  | s :: rest => s ++ concatAll rest

/-! ## Streaming response parser (`wxcloudrun/services/llm_service.py`)

`LLMService.chat_stream` posts a chat-completion request and iterates over the
response lines; each `data: `-prefixed JSON line is decoded into a chunk and
handed to `LLMService._parse_chunk` together with the mutable
`tool_call_accumulator`. -/

/-- One entry of a streamed `tool_calls` delta, as read by `_parse_chunk`:
`tc.get('index', 0)`, `tc.get('id')`, `tc.get('function', {}).get('name')`
and `tc.get('function', {}).get('arguments')`. -/
structure ToolCallDelta where
  index : Option Nat := none
  id : Option String := none
  name : Option String := none
  arguments : Option String := none
deriving Repr, DecidableEq

/-- `choice['delta']`: `content` is `some` iff the `'content'` key is present;
`tool_calls` is `some` iff the `'tool_calls'` key is present (even with an
empty list, `'tool_calls' in delta` then holds). -/
structure Delta where
  content : Option String := none
  tool_calls : Option (List ToolCallDelta) := none
deriving Repr, DecidableEq

/-- One element of `chunk['choices']`; `delta` defaults to the empty dict
(`choice.get('delta', {})`). -/
structure Choice where
  delta : Delta := {}
  finish_reason : Option String := none
deriving Repr, DecidableEq

/-- A decoded response chunk.  A JSON value without a (non-empty) `choices`
list is represented by `choices = []`: `_parse_chunk` treats
`'choices' not in chunk` and `not chunk['choices']` identically. -/
structure Chunk where
  choices : List Choice := []
deriving Repr, DecidableEq

/-- One per-index entry of `tool_call_accumulator`. -/
structure ToolAcc where
  id : String := ""
  name : String := ""
  arguments : String := ""
deriving Repr, DecidableEq

/-- `tool_call_accumulator`: a Python dict from index to accumulator entry,
as an insertion-ordered association list with unique keys. -/
abbrev Accumulator := List (Nat × ToolAcc)

/-- Dict lookup `tool_call_accumulator[index]`. -/
def accLookup (acc : Accumulator) (index : Nat) : Option ToolAcc :=
  (acc.find? (fun p => p.1 == index)).map (·.2)

/-- Update the entry at `index` (which is present) in place. -/
def accUpdate (acc : Accumulator) (index : Nat) (f : ToolAcc → ToolAcc) : Accumulator :=
  acc.map (fun p => if p.1 == index then (p.1, f p.2) else p)

/-- The body of the `for tc in delta['tool_calls']` loop of `_parse_chunk`:
create the entry for the index if absent, then mend in the fragment's `id`,
`name` and `arguments` (arguments are appended, preserving byte order). -/
def accumToolCall (acc : Accumulator) (tc : ToolCallDelta) : Accumulator :=
  let index := tc.index.getD 0
  let acc := if (accLookup acc index).isSome then acc else acc ++ [(index, ⟨"", "", ""⟩)]
  accUpdate acc index fun a =>
    let a := if pyTruthy tc.id then { a with id := tc.id.getD "" } else a
    let a := if pyTruthy tc.name then { a with name := tc.name.getD "" } else a
    if pyTruthy tc.arguments then
      { a with arguments := a.arguments ++ tc.arguments.getD "" }
    else a

/-- The events `chat_stream` yields (`error` arises only from transport
failures outside the line loop and is unreachable in this embedding). -/
inductive StreamEvent where
  | text (content : String)
  | tool_call (id name arguments : String)
  | finish (reason : String)
  | error (content : String)
  | done
deriving Repr, DecidableEq

/-- `LLMService._parse_chunk`: returns the (at most one) yielded event and the
accumulator after the call (the Python function mutates it in place). -/
def parse_chunk (chunk : Chunk) (acc : Accumulator) : Option StreamEvent × Accumulator :=
  match chunk.choices with
  | [] => (none, acc)
  | choice :: _ =>
    let delta := choice.delta
    match delta.tool_calls with
    | some tcs => (none, tcs.foldl accumToolCall acc)
    | none =>
      if pyTruthy delta.content then
        (some (.text (delta.content.getD "")), acc)
      else if pyTruthy choice.finish_reason then
        let reason := choice.finish_reason.getD ""
        if reason == "tool_calls" && !acc.isEmpty then
          match accLookup acc 0 with
          | some first_tool =>
            (some (.tool_call first_tool.id first_tool.name first_tool.arguments), acc)
          | none => (some (.finish reason), acc)
        else
          (some (.finish reason), acc)
      else
        (none, acc)

/-- What the payload of a `data: ` line decodes to: the literal `[DONE]`
marker, a JSON chunk (result of `json.loads`; a decodable value that is not a
choices-object behaves as a chunk with `choices = []`), or a
`json.JSONDecodeError`. -/
inductive DataPayload where
  | done_marker
  | chunk (c : Chunk)
  | malformed
deriving Repr, DecidableEq

/-- One line of `response.iter_lines()` as classified by the line loop of
`chat_stream`: an empty (falsy) line, a line without the `data: ` prefix, or a
data line with its payload. -/
inductive RawLine where
  | empty
  | no_data
  | data (p : DataPayload)
deriving Repr, DecidableEq

/-- The line loop of `LLMService.chat_stream`: empty lines, non-`data: ` lines
and undecodable payloads are skipped; `[DONE]` yields `done` and breaks;
decoded chunks go through `_parse_chunk`, whose non-`None` results are
yielded. -/
def process_lines (acc : Accumulator) : List RawLine → List StreamEvent
  | [] => []
  | line :: rest =>
    match line with
    | .empty => process_lines acc rest
    | .no_data => process_lines acc rest
    | .data .done_marker => [.done]
    | .data .malformed => process_lines acc rest
    | .data (.chunk c) =>
      match parse_chunk c acc with
      | (some e, acc') => e :: process_lines acc' rest
      | (none, acc') => process_lines acc' rest

/-- A fragment line carrying one tool-call delta that contributes only a chunk
of argument text at the given index. -/
def argFragLine (index : Nat) (s : String) : RawLine :=
  let tc : ToolCallDelta := { index := some index, arguments := some s }
  .data (.chunk { choices := [{ delta := { tool_calls := some [tc] } }] })

/-- A fragment line carrying one tool-call delta that sets the invocation id
and tool name at the given index (no argument text). -/
def headFragLine (index : Nat) (id name : String) : RawLine :=
  let tc : ToolCallDelta := { index := some index, id := some id, name := some name }
  .data (.chunk { choices := [{ delta := { tool_calls := some [tc] } }] })

/-- A terminal-marker line with the given `finish_reason`. -/
def finishLine (reason : String) : RawLine :=
  .data (.chunk { choices := [{ finish_reason := some reason }] })

/-- Recognizer for `ToolInvocation` events. -/
def isToolCallEvent : StreamEvent → Bool
  | .tool_call _ _ _ => true
  | _ => false

/-- Recognizer for `TurnFinished` events. -/
def isFinishEvent : StreamEvent → Bool
  | .finish _ => true
  | _ => false

/-! ## Conversation store (`wxcloudrun/services/agent_service.py`)

`ConversationStore` keeps `self._store`, a Python dict from conversation id to
the conversation dict.  Python stores object references: the dict handed to
`set` and the dict returned by `get` are the same object the caller mutates.
To capture this the embedding uses a heap of addressed conversation objects;
the store maps conversation ids to addresses.  Timestamps (`datetime.now()`)
are seconds as `Nat`; `total_seconds()` of a difference is an `Int`. -/

/-- One message of a conversation transcript. -/
structure Message where
  role : String
  content : String
deriving Repr, DecidableEq

/-- A conversation dict.  A freshly built dict (in `AgentService.chat_stream`)
has no `last_active` key yet; `ConversationStore.set` always stamps it before
the store holds the object, so the field carries 0 until then. -/
structure Conversation where
  id : String
  baby_id : Nat
  messages : List Message
  created_at : Nat
  last_active : Nat := 0
deriving Repr, DecidableEq

/-- The heap of conversation objects: address to object, plus the next fresh
address. -/
structure Heap where
  objs : List (Nat × Conversation)
  next : Nat
deriving Repr, DecidableEq

/-- Lookup in the heap's address table (keys are unique). -/
def hlookup : List (Nat × Conversation) → Nat → Option Conversation
  | [], _ => none
  | p :: rest, a => if p.1 = a then some p.2 else hlookup rest a

/-- In-place object replacement in the heap's address table. -/
def hset : List (Nat × Conversation) → Nat → Conversation → List (Nat × Conversation)
  | [], _, _ => []
  | p :: rest, a, c => if p.1 = a then (a, c) :: rest else p :: hset rest a c

/-- Dereference an address. -/
def Heap.get (h : Heap) (a : Nat) : Option Conversation :=
  hlookup h.objs a

/-- Mutate the object at an address in place. -/
def Heap.set (h : Heap) (a : Nat) (c : Conversation) : Heap :=
  { h with objs := hset h.objs a c }

/-- Allocate a new object, returning its address. -/
def Heap.alloc (h : Heap) (c : Conversation) : Nat × Heap :=
  (h.next, { objs := h.objs ++ [(h.next, c)], next := h.next + 1 })

/-- Dict lookup `self._store.get(cid)` (the stored reference; keys are
unique, insertion-ordered). -/
def slookup : List (String × Nat) → String → Option Nat
  | [], _ => none
  | p :: rest, k => if p.1 = k then some p.2 else slookup rest k

/-- Dict deletion `del self._store[cid]`. -/
def serase : List (String × Nat) → String → List (String × Nat)
  | [], _ => []
  | p :: rest, k => if p.1 = k then serase rest k else p :: serase rest k

/-- Dict assignment `self._store[cid] = ref`: replace in place if the key is
present, append otherwise. -/
def sinsert : List (String × Nat) → String → Nat → List (String × Nat)
  | [], k, a => [(k, a)]
  | p :: rest, k, a => if p.1 = k then (k, a) :: rest else p :: sinsert rest k a

/-- The `ConversationStore` state: `self._store` as an insertion-ordered dict
from conversation id to object reference, with its fixed configuration. -/
structure ConversationStore where
  entries : List (String × Nat)
  max_conversations : Nat := 1000
  ttl_seconds : Nat := 3600
deriving Repr, DecidableEq

/-- `ConversationStore._is_expired`:
`(datetime.now() - last_active).total_seconds() > self.ttl_seconds`. -/
def is_expired (now ttl : Nat) (c : Conversation) : Bool :=
  decide ((now : Int) - (c.last_active : Int) > (ttl : Int))

/-- `ConversationStore._cleanup_if_needed`: when the store is at or above
capacity, delete every expired entry. -/
def cleanup_if_needed (now : Nat) (s : ConversationStore) (h : Heap) : ConversationStore :=
  if s.max_conversations ≤ s.entries.length then
    { s with entries := s.entries.filter fun p =>
        match h.get p.2 with
        | some c => !is_expired now s.ttl_seconds c
        | none => true }
  else s

/-- `ConversationStore.get`: returns the stored reference unless the entry is
absent or expired; an expired entry is deleted as a side effect.  The
dangling-reference branch is unreachable: store entries always point at live
objects. -/
def ConversationStore.get (s : ConversationStore) (h : Heap) (now : Nat)
    (cid : String) : Option Nat × ConversationStore :=
  match slookup s.entries cid with
  | none => (none, s)
  | some a =>
    match h.get a with
    | none => (none, s)
    | some c =>
      if is_expired now s.ttl_seconds c then
        (none, { s with entries := serase s.entries cid })
      else
        (some a, s)

/-- `ConversationStore.set`: run the capacity cleanup, stamp
`data['last_active'] = now` on the object itself (a heap mutation), and store
the reference. -/
def ConversationStore.set (s : ConversationStore) (h : Heap) (now : Nat)
    (cid : String) (a : Nat) : ConversationStore × Heap :=
  let s1 := cleanup_if_needed now s h
  let h1 := match h.get a with
    | some c => h.set a { c with last_active := now }
    | none => h
  ({ s1 with entries := sinsert s1.entries cid a }, h1)

/-- `ConversationStore.update_messages`: only when the key is present, replace
the stored object's message list and refresh its `last_active`.  The store's
own key set is never changed by this operation (it only mutates the object),
so the result is just the new heap. -/
def ConversationStore.update_messages (s : ConversationStore) (h : Heap) (now : Nat)
    (cid : String) (msgs : List Message) : Heap :=
  match slookup s.entries cid with
  | none => h
  | some a =>
    match h.get a with
    | none => h
    | some c => h.set a { c with messages := msgs, last_active := now }

/-- Append one message to the conversation object at an address
(`conversation['messages'].append(...)` through the working-copy reference). -/
def appendMessage (h : Heap) (a : Nat) (m : Message) : Heap :=
  match h.get a with
  | none => h
  | some c => h.set a { c with messages := c.messages ++ [m] }

/-- The state-handling prelude of `AgentService.chat_stream` (lines 122-146):
load or create the conversation for the key, then append the user turn to the
working copy.  No `update_messages`/`set` write-back happens here after the
append; the returned address is the orchestrator's working copy. -/
def chat_stream_prelude (baby_id : Nat) (now : Nat) (message cid : String)
    (s : ConversationStore) (h : Heap) : Nat × ConversationStore × Heap :=
  match ConversationStore.get s h now cid with
  | (some a, s1) =>
    (a, s1, appendMessage h a { role := "user", content := message })
  | (none, s1) =>
    let conv : Conversation :=
      { id := cid, baby_id := baby_id, messages := [], created_at := now }
    let (a, h1) := Heap.alloc h conv
    let (s2, h2) := ConversationStore.set s1 h1 now cid a
    (a, s2, appendMessage h2 a { role := "user", content := message })

/-! ## Domain model (`wxcloudrun/model.py`, `wxcloudrun/dao.py`)

Dates are day counts as `Int` (so `date` subtraction and
`timedelta(days=...)` addition are integer arithmetic).  The embedding takes
the healthy-database path: `OperationalError` handlers in `dao.py` are the
external database boundary and never fire here. -/

/-- The subject (`Baby`), restricted to the fields the tool executor reads. -/
structure Baby where
  id : Nat
  name : String
deriving Repr, DecidableEq

/-- A food of the food store, restricted to the fields the tool executor
reads (`food.id`, `food.name`). -/
structure Food where
  id : Nat
  name : String
deriving Repr, DecidableEq

/-- A `special_status` row. -/
structure SpecialStatus where
  id : Nat
  baby_id : Nat
  status_type : String
  start_date : Int
  end_date : Int
  description : Option String
  is_active : Bool
  created_by : Nat
deriving Repr, DecidableEq

/-- `SpecialStatus.get_days_remaining` (`end_date` is a non-nullable column,
so its Python falsiness test never fires). -/
def SpecialStatus.get_days_remaining (st : SpecialStatus) (today : Int) : Int :=
  if !st.is_active then 0 else max 0 (st.end_date - today)

/-- `SpecialStatus.STATUS_TYPE_NAMES.get(t, t)`.  The handler-local
`status_names` dict in `_execute_create_special_status` is the identical
mapping. -/
def status_type_name (t : String) : String :=
  if t == "sick" then "生病"
  else if t == "vaccine" then "打疫苗"
  else if t == "other" then "其他"
  else t

/-- `MealPlan.MEAL_TYPE_NAMES.get(t, t)`. -/
def meal_type_name (t : String) : String :=
  if t == "breakfast" then "早餐"
  else if t == "lunch" then "午餐"
  else if t == "dinner" then "晚餐"
  else if t == "snack" then "加餐"
  else t

/-- A `meal_plans` row (`food_ids` is stored comma-joined; the embedding keeps
the id list). -/
structure MealPlan where
  id : Nat
  baby_id : Nat
  plan_date : Int
  meal_type : String
  food_ids : List Nat
  new_food_id : Option Nat
  is_ai_generated : Bool
  notes : Option String
  is_completed : Bool
  created_by : Nat
deriving Repr, DecidableEq

/-- A `baby_food_status` row, restricted to the fields
`create_or_update_baby_food_status` touches. -/
structure BabyFoodStatus where
  baby_id : Nat
  food_id : Nat
  status : String
  testing_start_date : Option Int
  testing_end_date : Option Int
  allergy_count : Nat
  allergy_symptoms : Option String
  notes : Option String
  updated_by : Nat
deriving Repr, DecidableEq

/-- The domain store the tool executor mutates through `dao`. -/
structure DomainState where
  special_statuses : List SpecialStatus
  meal_plans : List MealPlan
  food_statuses : List BabyFoodStatus
  next_status_id : Nat := 1
  next_plan_id : Nat := 1
deriving Repr, DecidableEq

/-- `dao.get_active_special_status`: the first row with this `baby_id`,
`is_active` and `end_date >= today`. -/
def get_active_special_status (st : DomainState) (baby_id : Nat) (today : Int) :
    Option SpecialStatus :=
  st.special_statuses.find? fun r =>
    r.baby_id == baby_id && r.is_active && decide (today ≤ r.end_date)

/-- `dao.create_special_status`: deactivate this subject's active statuses,
then insert a fresh row with `start_date = today` and
`end_date = today + duration_days`. -/
def create_special_status (st : DomainState) (baby_id : Nat) (status_type : String)
    (created_by : Nat) (description : Option String) (duration_days : Int)
    (today : Int) : Option SpecialStatus × DomainState :=
  let deactivated := st.special_statuses.map fun r =>
    if r.baby_id == baby_id && r.is_active then { r with is_active := false } else r
  let status : SpecialStatus :=
    { id := st.next_status_id, baby_id := baby_id, status_type := status_type,
      start_date := today, end_date := today + duration_days,
      description := description, is_active := true, created_by := created_by }
  (some status,
   { st with special_statuses := deactivated ++ [status],
             next_status_id := st.next_status_id + 1 })

/-- A Python exception crossing the `ToolExecutor.execute` dispatch boundary. -/
inductive PyExc where
  | attributeError (msg : String)
deriving Repr, DecidableEq

/-- `str(e)` for an exception. -/
def PyExc.message : PyExc → String
  | .attributeError m => m

/-- The message of the `AttributeError` raised by `dao.get_food_by_name`
attribute access. -/
def no_get_food_by_name_msg : String :=
  "module wxcloudrun.dao has no attribute get_food_by_name"

/-- `dao.get_food_by_name`: `wxcloudrun/dao.py` defines `get_food_by_id`,
`get_foods_by_ids` and `get_all_foods`, but no `get_food_by_name`.  The
attribute access `dao.get_food_by_name` performed by
`_execute_create_meal_record` and `_execute_report_allergy` therefore raises
`AttributeError` on every call. -/
def get_food_by_name (_name : String) : Except PyExc (Option Food) :=
  .error (.attributeError no_get_food_by_name_msg)

/-- `dao.get_meal_plan`: first row with this baby, date and meal type. -/
def get_meal_plan (st : DomainState) (baby_id : Nat) (plan_date : Int)
    (meal_type : String) : Option MealPlan :=
  st.meal_plans.find? fun p =>
    p.baby_id == baby_id && p.plan_date == plan_date && p.meal_type == meal_type

/-- `dao.create_or_update_meal_plan`: update the matching plan in place, or
insert a new one. -/
def create_or_update_meal_plan (st : DomainState) (baby_id : Nat) (plan_date : Int)
    (meal_type : String) (food_ids : List Nat) (created_by : Nat)
    (new_food_id : Option Nat) (is_ai_generated : Bool) (notes : Option String) :
    Option MealPlan × DomainState :=
  match get_meal_plan st baby_id plan_date meal_type with
  | some plan =>
    let plan' := { plan with food_ids := food_ids, new_food_id := new_food_id,
                             is_ai_generated := is_ai_generated, notes := notes }
    (some plan',
     { st with meal_plans := st.meal_plans.map fun p =>
         if p.id == plan.id then plan' else p })
  | none =>
    let plan : MealPlan :=
      { id := st.next_plan_id, baby_id := baby_id, plan_date := plan_date,
        meal_type := meal_type, food_ids := food_ids, new_food_id := new_food_id,
        is_ai_generated := is_ai_generated, notes := notes, is_completed := false,
        created_by := created_by }
    (some plan,
     { st with meal_plans := st.meal_plans ++ [plan],
               next_plan_id := st.next_plan_id + 1 })

/-- `dao.complete_meal_plan`: mark the plan completed if it exists. -/
def complete_meal_plan (st : DomainState) (plan_id : Nat) : Bool × DomainState :=
  match st.meal_plans.find? (fun p => p.id == plan_id) with
  | some _ =>
    (true, { st with meal_plans := st.meal_plans.map fun p =>
        if p.id == plan_id then { p with is_completed := true } else p })
  | none => (false, st)

/-- `dao.get_baby_food_status`: first row for this baby and food. -/
def get_baby_food_status (st : DomainState) (baby_id food_id : Nat) :
    Option BabyFoodStatus :=
  st.food_statuses.find? fun r => r.baby_id == baby_id && r.food_id == food_id

/-- `dao.create_or_update_baby_food_status` as called by
`_execute_report_allergy` (testing dates and notes are passed as `None`):
update the existing row, bumping `allergy_count` when the new status is
`allergic`, or insert a fresh row. -/
def create_or_update_baby_food_status (st : DomainState) (baby_id food_id : Nat)
    (status : String) (updated_by : Nat) (allergy_symptoms : Option String) :
    Option BabyFoodStatus × DomainState :=
  match get_baby_food_status st baby_id food_id with
  | some fs =>
    let fs := { fs with status := status, updated_by := updated_by }
    let fs := if pyTruthy allergy_symptoms then
                { fs with allergy_symptoms := allergy_symptoms } else fs
    let fs := if status == "allergic" then
                { fs with allergy_count := fs.allergy_count + 1 } else fs
    (some fs,
     { st with food_statuses := st.food_statuses.map fun r =>
         if r.baby_id == baby_id && r.food_id == food_id then fs else r })
  | none =>
    let fs : BabyFoodStatus :=
      { baby_id := baby_id, food_id := food_id, status := status,
        testing_start_date := none, testing_end_date := none, allergy_count := 0,
        allergy_symptoms := allergy_symptoms, notes := none,
        updated_by := updated_by }
    (some fs, { st with food_statuses := st.food_statuses ++ [fs] })

/-! ## Tool executor (`wxcloudrun/services/tool_executor.py`) -/

/-- A date-typed tool argument together with the outcome of
`datetime.strptime(s, '%Y-%m-%d')` on it: either the parsed day count or a
`ValueError`.  An absent key and the (falsy) empty string are both the outer
`none`. -/
inductive DateArg where
  | valid (day : Int)
  | invalid
deriving Repr, DecidableEq

/-- The untyped argument payload of a tool call, with one optional slot per
key any handler reads via `args.get`. -/
structure ToolArgs where
  status_type : Option String := none
  description : Option String := none
  start_date : Option DateArg := none
  duration_days : Option Int := none
  meal_date : Option DateArg := none
  meal_type : Option String := none
  food_names : Option (List String) := none
  notes : Option String := none
  food_name : Option String := none
  symptoms : Option String := none
  question : Option String := none
  missing_info : Option String := none
  question_type : Option String := none
  use_advanced_model : Option Bool := none
deriving Repr, DecidableEq

/-- The `'data'` payload a successful handler puts into its result dict
(a projection of `to_dict()` / the literal dicts built by the handlers). -/
inductive ToolData where
  | special_status (s : SpecialStatus)
  | meal_record (meal_date : Int) (meal_type : String) (foods : List String)
  | allergy (food : String) (symptoms : Option String)
deriving Repr, DecidableEq

/-- The result dict of a tool handler: one optional slot per key any handler
writes. -/
structure ToolResult where
  action : Option String := none
  message : Option String := none
  note : Option String := none
  error : Option String := none
  rtype : Option String := none
  question : Option String := none
  missing_info : Option String := none
  question_type : Option String := none
  use_advanced_model : Option Bool := none
  data : Option ToolData := none
  warning : Option String := none
deriving Repr, DecidableEq

/-- What a handler body produces: its `(success, result)` pair, or an escaped
exception; plus the domain state after the call (mutations performed before a
raise persist). -/
abbrev HandlerResult := Except PyExc (Bool × ToolResult) × DomainState

/-- Rendering of `date.isoformat()` on the abstract day count.  The concrete
calendar string is irrelevant here: no claim inspects it, and the only branch
that builds it is unreachable (see `get_food_by_name`). -/
def iso_format (d : Int) : String := toString d

/-- `ToolExecutor._execute_create_special_status`. -/
def execute_create_special_status (baby : Baby) (user_id : Nat) (today : Int)
    (args : ToolArgs) (st : DomainState) : HandlerResult :=
  let status_type := args.status_type
  let duration_days := args.duration_days.getD 14
  if !pyTruthy status_type then
    (.ok (false, { error := some "缺少状态类型" }), st)
  else
    match args.start_date with
    | some .invalid =>
      (.ok (false, { error := some "日期格式错误，请使用YYYY-MM-DD格式" }), st)
    | _ =>
      match get_active_special_status st baby.id today with
      | some existing =>
        (.ok (false, { error := some ("已存在特殊状态: "
            ++ status_type_name existing.status_type
            ++ "，将在" ++ toString (existing.get_days_remaining today)
            ++ "天后结束。如需记录新状态，请先结束当前状态。") }), st)
      | none =>
        match create_special_status st baby.id (status_type.getD "") user_id
            args.description duration_days today with
        | (none, st1) => (.ok (false, { error := some "创建失败，请稍后重试" }), st1)
        | (some status, st1) =>
          let result : ToolResult :=
            { action := some "create_special_status",
              message := some ("已记录" ++ baby.name ++ "的"
                ++ status_type_name (status_type.getD "") ++ "状态"),
              data := some (.special_status status),
              note := some "2周内将暂停添加新食材，确保宝宝安全" }
          (.ok (true, result), st1)

/-- The `for name in food_names` resolution loop of
`_execute_create_meal_record`: returns `(food_ids, found_foods, not_found)`
unless `dao.get_food_by_name` raises (which, here, it always does on a
non-empty list). -/
def resolve_food_names : List String → Except PyExc (List Nat × List String × List String)
  | [] => .ok ([], [], [])
  | n :: rest =>
    match get_food_by_name n with
    | .error e => .error e
    | .ok foodOpt =>
      match resolve_food_names rest with
      | .error e => .error e
      | .ok (ids, found, nf) =>
        match foodOpt with
        | some f => .ok (f.id :: ids, f.name :: found, nf)
        | none => .ok (ids, found, n :: nf)

/-- `ToolExecutor._execute_create_meal_record`. -/
def execute_create_meal_record (baby : Baby) (user_id : Nat) (today : Int)
    (args : ToolArgs) (st : DomainState) : HandlerResult :=
  let food_names := args.food_names.getD []
  if !pyTruthy args.meal_type then
    (.ok (false, { error := some "缺少餐次信息" }), st)
  else if food_names.isEmpty then
    (.ok (false, { error := some "缺少食材信息" }), st)
  else
    match args.meal_date with
    | some .invalid =>
      (.ok (false, { error := some "日期格式错误，请使用YYYY-MM-DD格式" }), st)
    | _ =>
      let meal_date := match args.meal_date with
        | some (.valid d) => d
        | _ => today
      match resolve_food_names food_names with
      | .error e => (.error e, st)
      | .ok (food_ids, found_foods, not_found) =>
        if food_ids.isEmpty then
          (.ok (false, { error := some ("未在食材库中找到: " ++ joinComma food_names
              ++ "。请确认食材名称是否正确。") }), st)
        else
          match create_or_update_meal_plan st baby.id meal_date
              (args.meal_type.getD "") food_ids user_id none false args.notes with
          | (none, st1) => (.ok (false, { error := some "保存失败，请稍后重试" }), st1)
          | (some plan, st1) =>
            let st2 := (complete_meal_plan st1 plan.id).2
            let result : ToolResult :=
              { action := some "create_meal_record",
                message := some ("已记录" ++ iso_format meal_date ++ " "
                  ++ meal_type_name (args.meal_type.getD "") ++ ": "
                  ++ joinComma found_foods),
                data := some (.meal_record meal_date (args.meal_type.getD "")
                  found_foods) }
            let result := if not_found.isEmpty then result
              else { result with warning := some ("以下食材未在食材库中找到: "
                ++ joinComma not_found) }
            (.ok (true, result), st2)

/-- `ToolExecutor._execute_report_allergy`. -/
def execute_report_allergy (baby : Baby) (user_id : Nat) (_today : Int)
    (args : ToolArgs) (st : DomainState) : HandlerResult :=
  if !pyTruthy args.food_name then
    (.ok (false, { error := some "缺少食材名称" }), st)
  else
    match get_food_by_name (args.food_name.getD "") with
    | .error e => (.error e, st)
    | .ok none =>
      (.ok (false, { error := some ("未在食材库中找到: " ++ args.food_name.getD ""
          ++ "。请确认食材名称是否正确。") }), st)
    | .ok (some food) =>
      match create_or_update_baby_food_status st baby.id food.id "allergic"
          user_id args.symptoms with
      | (none, st1) => (.ok (false, { error := some "记录失败，请稍后重试" }), st1)
      | (some _, st1) =>
        let result : ToolResult :=
          { action := some "report_allergy",
            message := some ("已记录" ++ baby.name ++ "对" ++ food.name ++ "过敏"),
            data := some (.allergy food.name args.symptoms),
            note := some (food.name
              ++ "已被标记为过敏食材，将不会出现在未来的辅食计划中") }
        (.ok (true, result), st1)

/-- `ToolExecutor._execute_ask_clarification`. -/
def execute_ask_clarification (_baby : Baby) (_user_id : Nat) (_today : Int)
    (args : ToolArgs) (st : DomainState) : HandlerResult :=
  let result : ToolResult :=
    { action := some "ask_clarification",
      rtype := some "clarification",
      question := some (args.question.getD "请提供更多信息"),
      missing_info := some (args.missing_info.getD "other") }
  (.ok (true, result), st)

/-- `ToolExecutor._execute_answer_question`. -/
def execute_answer_question (_baby : Baby) (_user_id : Nat) (_today : Int)
    (args : ToolArgs) (st : DomainState) : HandlerResult :=
  let result : ToolResult :=
    { action := some "answer_question",
      rtype := some "answer",
      question_type := some (args.question_type.getD "other"),
      use_advanced_model := some (args.use_advanced_model.getD true) }
  (.ok (true, result), st)

/-- The shape of a bound handler method. -/
abbrev HandlerFn := Baby → Nat → Int → ToolArgs → DomainState → HandlerResult

/-- `getattr(self, f'_execute_{tool_name}', None)`: the same-named handler
methods defined on `ToolExecutor` are exactly these five. -/
def dispatch (tool_name : String) : Option HandlerFn :=
  if tool_name == "create_special_status" then some execute_create_special_status
  else if tool_name == "create_meal_record" then some execute_create_meal_record
  else if tool_name == "report_allergy" then some execute_report_allergy
  else if tool_name == "ask_clarification" then some execute_ask_clarification
  else if tool_name == "answer_question" then some execute_answer_question
  else none

/-- The `try`/`except` of `ToolExecutor.execute`: an escaped exception becomes
`(False, {'error': str(e)})`. -/
def catchToFailure : HandlerResult → (Bool × ToolResult) × DomainState
  | (.ok r, st) => (r, st)
  | (.error e, st) => ((false, { error := some e.message }), st)

/-- `ToolExecutor.execute`: name-based dispatch to the handler, unknown names
yield the structured unknown-tool failure, and any exception from a handler is
caught at this boundary. -/
def ToolExecutor.execute (baby : Baby) (user_id : Nat) (today : Int)
    (tool_name : String) (args : ToolArgs) (st : DomainState) :
    (Bool × ToolResult) × DomainState :=
  match dispatch tool_name with
  | none => ((false, { error := some ("未知工具: " ++ tool_name) }), st)
  | some h => catchToFailure (h baby user_id today args st)

/-! ## Streaming-parser lemmas and claims -/

/-- Accumulating an argument-only fragment addressed to index 0 into a
single-entry accumulator appends the chunk to the stored argument text. -/
theorem accumToolCall_arg0 (i n a s : String) :
    accumToolCall [(0, ⟨i, n, a⟩)] { index := some 0, arguments := some s } =
      [(0, ⟨i, n, a ++ s⟩)] := by
  by_cases h : s = ""
  · subst h
    simp [accumToolCall, accLookup, accUpdate, pyTruthy, String.append_empty]
  · simp [accumToolCall, accLookup, accUpdate, pyTruthy, h]

/-- Accumulating a fragment that sets id and name at index 0 into an empty
accumulator creates the entry. -/
theorem accumToolCall_head (id name : String) (hid : id ≠ "") (hname : name ≠ "") :
    accumToolCall [] { index := some 0, id := some id, name := some name } =
      [(0, ⟨id, name, ""⟩)] := by
  simp [accumToolCall, accLookup, accUpdate, pyTruthy, hid, hname]

/-- Parsing an argument-chunk fragment yields no event and extends the
accumulated argument text. -/
theorem parse_chunk_arg0 (i n a s : String) :
    parse_chunk { choices := [{ delta := { tool_calls := some [{ index := some 0, arguments := some s }] } }] }
        [(0, ⟨i, n, a⟩)] =
      (none, [(0, ⟨i, n, a ++ s⟩)]) := by
  simp [parse_chunk, accumToolCall_arg0]

/-- Parsing the terminal chunk with `finish_reason = 'tool_calls'` against an
accumulator whose index-0 entry is filled emits the completed tool invocation
(and nothing else: `_parse_chunk` returns at most one event). -/
theorem parse_chunk_finish_tool_calls (acc : Accumulator) (ft : ToolAcc)
    (h : accLookup acc 0 = some ft) :
    parse_chunk { choices := [{ finish_reason := some "tool_calls" }] } acc =
      (some (.tool_call ft.id ft.name ft.arguments), acc) := by
  cases acc with
  | nil => simp [accLookup] at h
  | cons p acc' => simp [parse_chunk, pyTruthy, h]

/-- Feeding a run of argument chunks addressed to index 0 and then the
`tool_calls` terminal marker emits exactly the completed invocation, its
arguments extended by the chunks in order. -/
theorem process_lines_arg_frags (i n : String) (ss : List String) :
    ∀ a : String,
      process_lines [(0, ⟨i, n, a⟩)]
          (ss.map (argFragLine 0) ++ [finishLine "tool_calls"]) =
        [.tool_call i n (a ++ concatAll ss)] := by
  induction ss with
  | nil =>
    intro a
    have hfin := parse_chunk_finish_tool_calls [(0, ⟨i, n, a⟩)] ⟨i, n, a⟩ rfl
    simp [process_lines, finishLine, hfin, concatAll, String.append_empty]
  | cons s rest ih =>
    intro a
    have harg := parse_chunk_arg0 i n a s
    simp only [List.map_cons, List.cons_append, process_lines, argFragLine, harg, concatAll]
    rw [← String.append_assoc]
    exact ih (a ++ s)

/-- C1 (amended: the fragments are addressed to index 0, the accumulator the
parser surfaces): a fragment sequence carrying a single tool call whose id and
name arrive first and whose argument text is split across N fragments at index
0, followed by the `tool_calls` terminal marker, produces exactly one
`ToolInvocation` event, whose `rawArguments` is the ordered concatenation of
the N argument chunks. -/
theorem parser_concats_args_at_index0 (id name : String)
    (hid : id ≠ "") (hname : name ≠ "") (ss : List String) :
    process_lines []
        (headFragLine 0 id name :: (ss.map (argFragLine 0) ++ [finishLine "tool_calls"])) =
      [.tool_call id name (concatAll ss)] := by
  have hhead := accumToolCall_head id name hid hname
  have hrest := process_lines_arg_frags id name ss ""
  simp only [process_lines, headFragLine, parse_chunk, List.foldl, hhead, hrest,
    String.empty_append]

/-- C1 witness: a two-chunk argument split at index 0 is reassembled in
order. -/
theorem parser_concats_args_at_index0_witness :
    process_lines []
        (headFragLine 0 "call_1" "create_meal_record"
          :: (["meal_type = lu", "nch"].map (argFragLine 0)
              ++ [finishLine "tool_calls"])) =
      [.tool_call "call_1" "create_meal_record"
        (concatAll ["meal_type = lu", "nch"])] :=
  parser_concats_args_at_index0 "call_1" "create_meal_record"
    (by decide) (by decide) ["meal_type = lu", "nch"]

/-- C1 counterexample: a single tool call whose argument chunks are addressed
to index 1 (the same index throughout) never yields a `ToolInvocation` — at
the terminal marker `_parse_chunk` only consults accumulator index 0, finds
nothing, and emits the bare finish event instead. -/
theorem parser_drops_nonzero_index_counterexample :
    process_lines [] [argFragLine 1 "{}", finishLine "tool_calls"] =
        [.finish "tool_calls"] ∧
      (process_lines [] [argFragLine 1 "{}", finishLine "tool_calls"]).countP
          isToolCallEvent = 0 :=
  ⟨rfl, rfl⟩

/-- C2 (amended: the completed invocation is emitted in place of the
`TurnFinished` event, not before it): on the terminal marker with
`finish_reason = 'tool_calls'` and a filled accumulator entry at index 0, the
stream yields exactly the completed `ToolInvocation` and no `TurnFinished`
event at all. -/
theorem tool_calls_terminal_emits_invocation_without_finish
    (acc : Accumulator) (ft : ToolAcc) (h : accLookup acc 0 = some ft) :
    process_lines acc [finishLine "tool_calls"] =
        [.tool_call ft.id ft.name ft.arguments] ∧
      (process_lines acc [finishLine "tool_calls"]).countP isFinishEvent = 0 := by
  have hfin := parse_chunk_finish_tool_calls acc ft h
  constructor
  · simp [process_lines, finishLine, hfin]
  · simp [process_lines, finishLine, hfin, isFinishEvent, List.countP, List.countP.go]

/-- C2 witness: concrete accumulated invocation surfaced at the terminal
marker, with no finish event. -/
theorem tool_calls_terminal_emits_invocation_without_finish_witness :
    process_lines [(0, ⟨"call_1", "report_allergy", "{}"⟩)] [finishLine "tool_calls"] =
        [.tool_call "call_1" "report_allergy" "{}"] ∧
      (process_lines [(0, ⟨"call_1", "report_allergy", "{}"⟩)]
          [finishLine "tool_calls"]).countP isFinishEvent = 0 :=
  tool_calls_terminal_emits_invocation_without_finish
    [(0, ⟨"call_1", "report_allergy", "{}"⟩)] ⟨"call_1", "report_allergy", "{}"⟩ rfl

/-- C2 counterexample: as claimed, the `TurnFinished` event should follow the
emitted `ToolInvocation`; in fact the terminal marker produces only the
invocation and no finish event. -/
theorem finish_suppressed_after_invocation_counterexample :
    process_lines []
        [headFragLine 0 "call_1" "create_meal_record", argFragLine 0 "{}",
          finishLine "tool_calls"] =
        [.tool_call "call_1" "create_meal_record" "{}"] ∧
      (process_lines []
          [headFragLine 0 "call_1" "create_meal_record", argFragLine 0 "{}",
            finishLine "tool_calls"]).countP isFinishEvent = 0 :=
  ⟨rfl, rfl⟩

/-- C7: feeding a malformed (undecodable) fragment anywhere in the stream
changes nothing: the events of the surrounding well-formed fragments are
exactly those of the sequence without the malformed fragment. -/
theorem malformed_fragment_transparent (pre post : List RawLine) (acc : Accumulator) :
    process_lines acc (pre ++ RawLine.data DataPayload.malformed :: post) =
      process_lines acc (pre ++ post) := by
  induction pre generalizing acc with
  | nil => rfl
  | cons l rest ih =>
    cases l with
    | empty => simpa [process_lines] using ih acc
    | no_data => simpa [process_lines] using ih acc
    | data p =>
      cases p with
      | done_marker => rfl
      | malformed => simpa [process_lines] using ih acc
      | chunk c =>
        simp only [List.cons_append, process_lines]
        cases hp : parse_chunk c acc with
        | mk ev acc' => cases ev <;> simp [ih]

/-! ## Conversation-store lemmas and claims -/

/-- Deleting a key makes its lookup absent. -/
theorem slookup_serase_self (l : List (String × Nat)) (k : String) :
    slookup (serase l k) k = none := by
  induction l with
  | nil => rfl
  | cons p rest ih =>
    by_cases hp : p.1 = k
    · simpa [serase, hp] using ih
    · simpa [serase, slookup, hp] using ih

/-- Deleting one key leaves every other lookup unchanged. -/
theorem slookup_serase_ne (l : List (String × Nat)) (k k' : String) (h : k' ≠ k) :
    slookup (serase l k) k' = slookup l k' := by
  induction l with
  | nil => rfl
  | cons p rest ih =>
    by_cases hp : p.1 = k
    · have hq : ¬p.1 = k' := fun e => h (e.symm.trans hp)
      have h1 : serase (p :: rest) k = serase rest k := by simp [serase, hp]
      have h2 : slookup (p :: rest) k' = slookup rest k' := by simp [slookup, hq]
      rw [h1, h2]
      exact ih
    · have h1 : serase (p :: rest) k = p :: serase rest k := by simp [serase, hp]
      by_cases hq : p.1 = k'
      · rw [h1]
        simp [slookup, hq]
      · rw [h1]
        simp only [slookup, if_neg hq]
        exact ih

/-- Replacing the object at a live address updates what a lookup at that
address returns. -/
theorem hlookup_hset_self (a : Nat) (c' : Conversation) :
    ∀ l : List (Nat × Conversation), (hlookup l a).isSome →
      hlookup (hset l a c') a = some c' := by
  intro l
  induction l with
  | nil => intro hl; simp [hlookup] at hl
  | cons p rest ih =>
    intro hl
    by_cases hp : p.1 = a
    · simp [hset, hlookup, hp]
    · simp only [hlookup, if_neg hp] at hl
      simpa [hset, hlookup, hp] using ih hl

/-- Mutating the object at a live address updates what the address
dereferences to. -/
theorem Heap.get_set_self (h : Heap) (a : Nat) (c c' : Conversation)
    (hc : h.get a = some c) : (h.set a c').get a = some c' := by
  have hsome : (hlookup h.objs a).isSome := by
    unfold Heap.get at hc
    rw [hc]
    rfl
  unfold Heap.get Heap.set
  exact hlookup_hset_self a c' h.objs hsome

/-- Appending a message through a live reference is visible at that
reference. -/
theorem appendMessage_get (h : Heap) (a : Nat) (c : Conversation) (m : Message)
    (hc : h.get a = some c) :
    (appendMessage h a m).get a = some { c with messages := c.messages ++ [m] } := by
  unfold appendMessage
  rw [hc]
  exact Heap.get_set_self h a c _ hc

/-- C3: a `get` for a key whose entry expired returns absent and deletes the
entry, and a subsequent `get` on the resulting store for a different,
non-expired key still returns that key's stored conversation, leaving the
store unchanged. -/
theorem get_expired_absent_fresh_unaffected
    (s : ConversationStore) (h : Heap) (now : Nat) (k k' : String)
    (a a' : Nat) (c c' : Conversation)
    (hk : slookup s.entries k = some a) (hc : h.get a = some c)
    (hexp : (now : Int) - (c.last_active : Int) > (s.ttl_seconds : Int))
    (hne : k' ≠ k)
    (hk' : slookup s.entries k' = some a') (hc' : h.get a' = some c')
    (hfresh : ¬((now : Int) - (c'.last_active : Int) > (s.ttl_seconds : Int))) :
    (ConversationStore.get s h now k).1 = none ∧
    slookup (ConversationStore.get s h now k).2.entries k = none ∧
    (ConversationStore.get (ConversationStore.get s h now k).2 h now k').1 = some a' ∧
    (ConversationStore.get (ConversationStore.get s h now k).2 h now k').2 =
      (ConversationStore.get s h now k).2 ∧
    h.get a' = some c' := by
  have he : is_expired now s.ttl_seconds c = true := by
    simpa [is_expired] using hexp
  have hf : is_expired now s.ttl_seconds c' = false := by
    simpa [is_expired] using hfresh
  have h1 : ConversationStore.get s h now k =
      (none, { s with entries := serase s.entries k }) := by
    simp [ConversationStore.get, hk, hc, he]
  have hk2 : slookup (serase s.entries k) k' = some a' := by
    rw [slookup_serase_ne s.entries k k' hne]
    exact hk'
  refine ⟨by rw [h1], ?_, ?_, ?_, hc'⟩
  · rw [h1]
    exact slookup_serase_self s.entries k
  · rw [h1]
    simp [ConversationStore.get, hk2, hc', hf]
  · rw [h1]
    simp [ConversationStore.get, hk2, hc', hf]

/-- C3 witness: key `old` (idle for 5000 s with a 3600 s TTL) expires and is
deleted; key `fresh` (idle for 1000 s) survives the subsequent `get`. -/
theorem get_expired_absent_fresh_unaffected_witness :
    (ConversationStore.get ⟨[("old", 0), ("fresh", 1)], 1000, 3600⟩
        ⟨[(0, ⟨"old", 7, [], 0, 0⟩), (1, ⟨"fresh", 8, [], 4000, 4000⟩)], 2⟩
        5000 "old").1 = none ∧
    slookup (ConversationStore.get ⟨[("old", 0), ("fresh", 1)], 1000, 3600⟩
        ⟨[(0, ⟨"old", 7, [], 0, 0⟩), (1, ⟨"fresh", 8, [], 4000, 4000⟩)], 2⟩
        5000 "old").2.entries "old" = none ∧
    (ConversationStore.get (ConversationStore.get ⟨[("old", 0), ("fresh", 1)], 1000, 3600⟩
        ⟨[(0, ⟨"old", 7, [], 0, 0⟩), (1, ⟨"fresh", 8, [], 4000, 4000⟩)], 2⟩
        5000 "old").2
        ⟨[(0, ⟨"old", 7, [], 0, 0⟩), (1, ⟨"fresh", 8, [], 4000, 4000⟩)], 2⟩
        5000 "fresh").1 = some 1 ∧
    (ConversationStore.get (ConversationStore.get ⟨[("old", 0), ("fresh", 1)], 1000, 3600⟩
        ⟨[(0, ⟨"old", 7, [], 0, 0⟩), (1, ⟨"fresh", 8, [], 4000, 4000⟩)], 2⟩
        5000 "old").2
        ⟨[(0, ⟨"old", 7, [], 0, 0⟩), (1, ⟨"fresh", 8, [], 4000, 4000⟩)], 2⟩
        5000 "fresh").2 =
      (ConversationStore.get ⟨[("old", 0), ("fresh", 1)], 1000, 3600⟩
        ⟨[(0, ⟨"old", 7, [], 0, 0⟩), (1, ⟨"fresh", 8, [], 4000, 4000⟩)], 2⟩
        5000 "old").2 ∧
    Heap.get ⟨[(0, ⟨"old", 7, [], 0, 0⟩), (1, ⟨"fresh", 8, [], 4000, 4000⟩)], 2⟩ 1 =
      some ⟨"fresh", 8, [], 4000, 4000⟩ :=
  get_expired_absent_fresh_unaffected
    ⟨[("old", 0), ("fresh", 1)], 1000, 3600⟩
    ⟨[(0, ⟨"old", 7, [], 0, 0⟩), (1, ⟨"fresh", 8, [], 4000, 4000⟩)], 2⟩
    5000 "old" "fresh" 0 1 ⟨"old", 7, [], 0, 0⟩ ⟨"fresh", 8, [], 4000, 4000⟩
    rfl rfl (by decide) (by decide) rfl rfl (by decide)

/-- C10: `update_messages` for an absent key is a complete no-op (the heap is
untouched; the store's key set cannot change at all under this operation,
whose result is only the new heap), while a present key has its object's
message list replaced and `last_active` refreshed. -/
theorem update_messages_only_present_keys
    (s : ConversationStore) (h : Heap) (now : Nat) (cid : String)
    (msgs : List Message) :
    (slookup s.entries cid = none →
      ConversationStore.update_messages s h now cid msgs = h) ∧
    (∀ a c, slookup s.entries cid = some a → h.get a = some c →
      ConversationStore.update_messages s h now cid msgs =
        h.set a { c with messages := msgs, last_active := now }) := by
  constructor
  · intro habs
    simp [ConversationStore.update_messages, habs]
  · intro a c ha hc
    simp [ConversationStore.update_messages, ha, hc]

/-- C10 witness: updating a key the store does not hold changes nothing. -/
theorem update_messages_only_present_keys_witness :
    ConversationStore.update_messages ⟨[("a", 0)], 1000, 3600⟩
        ⟨[(0, ⟨"a", 1, [], 10, 10⟩)], 1⟩ 50 "missing" [⟨"user", "hi"⟩] =
      ⟨[(0, ⟨"a", 1, [], 10, 10⟩)], 1⟩ :=
  (update_messages_only_present_keys ⟨[("a", 0)], 1000, 3600⟩
    ⟨[(0, ⟨"a", 1, [], 10, 10⟩)], 1⟩ 50 "missing" [⟨"user", "hi"⟩]).1 rfl

/-- C6 (amended: the orchestrator's working copy is the same object the store
references, so its mutations are immediately visible in the stored
conversation with no write-back): for a present, non-expired key the prelude
of `AgentService.chat_stream` returns the stored reference itself, leaves the
store's entries untouched, and after it appends the user turn the
conversation reachable from the store already contains that turn — before any
`update_messages`/`set` call. -/
theorem working_copy_aliases_stored_conversation
    (baby_id now : Nat) (message cid : String)
    (s : ConversationStore) (h : Heap) (a : Nat) (c : Conversation)
    (hk : slookup s.entries cid = some a) (hc : h.get a = some c)
    (hfresh : ¬((now : Int) - (c.last_active : Int) > (s.ttl_seconds : Int))) :
    (chat_stream_prelude baby_id now message cid s h).1 = a ∧
    (chat_stream_prelude baby_id now message cid s h).2.1 = s ∧
    Heap.get (chat_stream_prelude baby_id now message cid s h).2.2 a =
      some { c with messages := c.messages ++ [{ role := "user", content := message }] } := by
  have hf : is_expired now s.ttl_seconds c = false := by
    simpa [is_expired] using hfresh
  have hget : ConversationStore.get s h now cid = (some a, s) := by
    simp [ConversationStore.get, hk, hc, hf]
  unfold chat_stream_prelude
  rw [hget]
  exact ⟨rfl, rfl, appendMessage_get h a c _ hc⟩

/-- C6 witness: the aliasing theorem at a concrete store and heap. -/
theorem working_copy_aliases_stored_conversation_witness :
    (chat_stream_prelude 9 200 "你好" "k7" ⟨[("k7", 3)], 1000, 3600⟩
        ⟨[(3, ⟨"k7", 9, [⟨"user", "早"⟩], 100, 150⟩)], 4⟩).1 = 3 ∧
    (chat_stream_prelude 9 200 "你好" "k7" ⟨[("k7", 3)], 1000, 3600⟩
        ⟨[(3, ⟨"k7", 9, [⟨"user", "早"⟩], 100, 150⟩)], 4⟩).2.1 =
      ⟨[("k7", 3)], 1000, 3600⟩ ∧
    Heap.get (chat_stream_prelude 9 200 "你好" "k7" ⟨[("k7", 3)], 1000, 3600⟩
        ⟨[(3, ⟨"k7", 9, [⟨"user", "早"⟩], 100, 150⟩)], 4⟩).2.2 3 =
      some ⟨"k7", 9, [⟨"user", "早"⟩, ⟨"user", "你好"⟩], 100, 150⟩ := by
  have h := working_copy_aliases_stored_conversation 9 200 "你好" "k7"
    ⟨[("k7", 3)], 1000, 3600⟩ ⟨[(3, ⟨"k7", 9, [⟨"user", "早"⟩], 100, 150⟩)], 4⟩
    3 ⟨"k7", 9, [⟨"user", "早"⟩], 100, 150⟩ rfl rfl (by decide)
  exact h

/-- C6 counterexample: the claim says working-copy mutations become visible in
the stored conversation only through an explicit write-back; in fact, after
the prelude appends the user turn to the working copy — with no
`update_messages`/`set` call after the append — the conversation the store
references for the key already contains the user turn (Python stores the
reference to the very dict the orchestrator mutates). -/
theorem stored_conversation_mutated_without_writeback_counterexample :
    slookup (chat_stream_prelude 7 100 "吃了米粉" "c1" ⟨[("c1", 0)], 1000, 3600⟩
        ⟨[(0, ⟨"c1", 7, [], 50, 50⟩)], 1⟩).2.1.entries "c1" = some 0 ∧
    Heap.get (chat_stream_prelude 7 100 "吃了米粉" "c1" ⟨[("c1", 0)], 1000, 3600⟩
        ⟨[(0, ⟨"c1", 7, [], 50, 50⟩)], 1⟩).2.2 0 =
      some ⟨"c1", 7, [⟨"user", "吃了米粉"⟩], 50, 50⟩ :=
  ⟨rfl, rfl⟩

/-! ## Tool-executor lemmas and claims -/

/-- The conflict failure message built by `_execute_create_special_status`. -/
def conflict_msg (ex : SpecialStatus) (today : Int) : String :=
  "已存在特殊状态: " ++ status_type_name ex.status_type ++ "，将在"
    ++ toString (ex.get_days_remaining today) ++ "天后结束。如需记录新状态，请先结束当前状态。"

/-- The handler body of `create_special_status` on the conflict path. -/
theorem execute_create_special_status_conflict (baby : Baby) (user_id : Nat)
    (today : Int) (args : ToolArgs) (st : DomainState) (ex : SpecialStatus)
    (hty : pyTruthy args.status_type = true)
    (hdate : args.start_date ≠ some .invalid)
    (hex : get_active_special_status st baby.id today = some ex) :
    execute_create_special_status baby user_id today args st =
      (.ok (false, { error := some (conflict_msg ex today) }), st) := by
  rcases hd : args.start_date with _ | d
  · simp [execute_create_special_status, conflict_msg, hty, hex, hd]
  · cases d with
    | valid day => simp [execute_create_special_status, conflict_msg, hty, hex, hd]
    | invalid => exact absurd hd hdate

/-- C4: when the subject already has an active special status, recording a
new one fails with the structured conflict outcome naming the existing status
and its remaining days, and leaves the domain state untouched. -/
theorem create_special_status_conflict_no_mutation (baby : Baby) (user_id : Nat)
    (today : Int) (args : ToolArgs) (st : DomainState) (ex : SpecialStatus)
    (hty : pyTruthy args.status_type = true)
    (hdate : args.start_date ≠ some .invalid)
    (hex : get_active_special_status st baby.id today = some ex) :
    ToolExecutor.execute baby user_id today "create_special_status" args st =
      ((false, { error := some (conflict_msg ex today) }), st) := by
  show catchToFailure (execute_create_special_status baby user_id today args st) = _
  rw [execute_create_special_status_conflict baby user_id today args st ex
    hty hdate hex]
  rfl

/-- C4 witness: recording a vaccine status while a sickness status is active
for 10 more days yields the conflict error and no state change. -/
theorem create_special_status_conflict_no_mutation_witness :
    ToolExecutor.execute ⟨1, "毛毛"⟩ 2 20000 "create_special_status"
        { status_type := some "vaccine" }
        ⟨[⟨5, 1, "sick", 19996, 20010, none, true, 2⟩], [], [], 6, 1⟩ =
      ((false, { error := some (conflict_msg ⟨5, 1, "sick", 19996, 20010, none, true, 2⟩ 20000) }),
        ⟨[⟨5, 1, "sick", 19996, 20010, none, true, 2⟩], [], [], 6, 1⟩) :=
  create_special_status_conflict_no_mutation ⟨1, "毛毛"⟩ 2 20000
    { status_type := some "vaccine" }
    ⟨[⟨5, 1, "sick", 19996, 20010, none, true, 2⟩], [], [], 6, 1⟩
    ⟨5, 1, "sick", 19996, 20010, none, true, 2⟩
    (by decide) (by decide) (by decide)

/-- The handler body of `report_allergy` always escapes with the
`AttributeError` of the missing `dao.get_food_by_name` when a food name is
supplied. -/
theorem execute_report_allergy_raises (baby : Baby) (user_id : Nat) (today : Int)
    (args : ToolArgs) (st : DomainState)
    (hfood : pyTruthy args.food_name = true) :
    execute_report_allergy baby user_id today args st =
      (.error (.attributeError no_get_food_by_name_msg), st) := by
  unfold execute_report_allergy
  rw [hfood]
  simp [get_food_by_name]

/-- C5: reporting an allergy for a food name the store cannot resolve (here,
the resolution call itself fails for every name) returns a failed outcome
with an error payload and performs no domain mutation. -/
theorem report_allergy_fails_without_mutation (baby : Baby) (user_id : Nat)
    (today : Int) (args : ToolArgs) (st : DomainState)
    (hfood : pyTruthy args.food_name = true) :
    ToolExecutor.execute baby user_id today "report_allergy" args st =
      ((false, { error := some no_get_food_by_name_msg }), st) := by
  show catchToFailure (execute_report_allergy baby user_id today args st) = _
  rw [execute_report_allergy_raises baby user_id today args st hfood]
  rfl

/-- C5 witness: reporting an allergy to an unknown food fails without
touching the domain state. -/
theorem report_allergy_fails_without_mutation_witness :
    ToolExecutor.execute ⟨1, "毛毛"⟩ 2 20000 "report_allergy"
        { food_name := some "榴莲" } ⟨[], [], [], 1, 1⟩ =
      ((false, { error := some no_get_food_by_name_msg }), ⟨[], [], [], 1, 1⟩) :=
  report_allergy_fails_without_mutation ⟨1, "毛毛"⟩ 2 20000
    { food_name := some "榴莲" } ⟨[], [], [], 1, 1⟩ (by decide)

/-- The handler body of `create_meal_record` always escapes with the
`AttributeError` of the missing `dao.get_food_by_name` once validation
passes. -/
theorem execute_create_meal_record_raises (baby : Baby) (user_id : Nat)
    (today : Int) (args : ToolArgs) (st : DomainState)
    (hmt : pyTruthy args.meal_type = true)
    (hfn : args.food_names.getD [] ≠ [])
    (hdate : args.meal_date ≠ some .invalid) :
    execute_create_meal_record baby user_id today args st =
      (.error (.attributeError no_get_food_by_name_msg), st) := by
  obtain ⟨x, xs, hl⟩ : ∃ x xs, args.food_names.getD [] = x :: xs := by
    cases hl : args.food_names.getD [] with
    | nil => exact absurd hl hfn
    | cons x xs => exact ⟨x, xs, rfl⟩
  rcases hd : args.meal_date with _ | d
  · simp [execute_create_meal_record, hmt, hl, hd, resolve_food_names,
      get_food_by_name]
  · cases d with
    | valid day =>
      simp [execute_create_meal_record, hmt, hl, hd, resolve_food_names,
        get_food_by_name]
    | invalid => exact absurd hd hdate

/-- C8: with all required fields supplied, both `create_meal_record` and
`report_allergy` fail with the `AttributeError` message of the undefined
`dao.get_food_by_name`, converted to a failure result at the dispatch
boundary, and neither mutates the domain state. -/
theorem food_resolution_missing_fails_both (baby : Baby) (user_id : Nat)
    (today : Int) (args1 args2 : ToolArgs) (st : DomainState)
    (hmt : pyTruthy args1.meal_type = true)
    (hfn : args1.food_names.getD [] ≠ [])
    (hdate : args1.meal_date ≠ some .invalid)
    (hfood : pyTruthy args2.food_name = true) :
    ToolExecutor.execute baby user_id today "create_meal_record" args1 st =
        ((false, { error := some no_get_food_by_name_msg }), st) ∧
      ToolExecutor.execute baby user_id today "report_allergy" args2 st =
        ((false, { error := some no_get_food_by_name_msg }), st) := by
  constructor
  · show catchToFailure (execute_create_meal_record baby user_id today args1 st) = _
    rw [execute_create_meal_record_raises baby user_id today args1 st hmt hfn hdate]
    rfl
  · show catchToFailure (execute_report_allergy baby user_id today args2 st) = _
    rw [execute_report_allergy_raises baby user_id today args2 st hfood]
    rfl

/-- C8 witness: a fully-specified meal record and a fully-specified allergy
report both fail with the missing-attribute error, leaving the state as it
was. -/
theorem food_resolution_missing_fails_both_witness :
    ToolExecutor.execute ⟨1, "毛毛"⟩ 2 20000 "create_meal_record"
        { meal_type := some "lunch", food_names := some ["米粉", "南瓜"] }
        ⟨[], [], [], 1, 1⟩ =
      ((false, { error := some no_get_food_by_name_msg }), ⟨[], [], [], 1, 1⟩) ∧
    ToolExecutor.execute ⟨1, "毛毛"⟩ 2 20000 "report_allergy"
        { food_name := some "鸡蛋", symptoms := some "皮疹" } ⟨[], [], [], 1, 1⟩ =
      ((false, { error := some no_get_food_by_name_msg }), ⟨[], [], [], 1, 1⟩) :=
  food_resolution_missing_fails_both ⟨1, "毛毛"⟩ 2 20000
    { meal_type := some "lunch", food_names := some ["米粉", "南瓜"] }
    { food_name := some "鸡蛋", symptoms := some "皮疹" }
    ⟨[], [], [], 1, 1⟩ (by decide) (by decide) (by decide) (by decide)

/-- A tool name outside the five `_execute_*` handler methods has no
handler. -/
theorem dispatch_eq_none_of_not_handled (n : String)
    (h : n ∉ ["create_special_status", "create_meal_record", "report_allergy",
      "ask_clarification", "answer_question"]) :
    dispatch n = none := by
  simp only [List.mem_cons, List.not_mem_nil, or_false, not_or] at h
  obtain ⟨h1, h2, h3, h4, h5⟩ := h
  simp [dispatch, h1, h2, h3, h4, h5]

/-- C9: executing a tool name with no same-named handler returns the
structured unknown-tool failure, raises nothing, and performs no domain
mutation, whatever the argument payload. -/
theorem unknown_tool_structured_failure (baby : Baby) (user_id : Nat)
    (today : Int) (tool_name : String) (args : ToolArgs) (st : DomainState)
    (h : tool_name ∉ ["create_special_status", "create_meal_record",
      "report_allergy", "ask_clarification", "answer_question"]) :
    ToolExecutor.execute baby user_id today tool_name args st =
      ((false, { error := some ("未知工具: " ++ tool_name) }), st) := by
  unfold ToolExecutor.execute
  rw [dispatch_eq_none_of_not_handled tool_name h]

/-- C9 witness: an unknown tool name is rejected with the structured error
and an unchanged state. -/
theorem unknown_tool_structured_failure_witness :
    ToolExecutor.execute ⟨1, "毛毛"⟩ 2 20000 "delete_baby" {} ⟨[], [], [], 1, 1⟩ =
      ((false, { error := some ("未知工具: " ++ "delete_baby") }), ⟨[], [], [], 1, 1⟩) :=
  unknown_tool_structured_failure ⟨1, "毛毛"⟩ 2 20000 "delete_baby" {}
    ⟨[], [], [], 1, 1⟩ (by decide)

end YoyoMeal
